import Mathlib

/-!
Verification of the effil thread-control core (threading.cpp, shutdown.h,
shutdown.cpp) via a shallow embedding: the `ThreadHandle` status/command
state machine, the hook-point protocol, the cancellation unwind, the
shutdown counter, and the controller-facing `Thread` operations.

The notifiers are modelled as latched boolean signals; blocking waits are
modelled by returning `none` (the call would block) or by consuming an
explicit list of observations supplied by the environment (the values the
wait would return over time).
-/

namespace Effil

/-- Worker status, as in `ThreadHandle::Status` (threading.h via usage in
threading.cpp). -/
inductive Status
  | Running
  | Paused
  | Canceled
  | Completed
  | Failed
deriving DecidableEq, Repr

/-- Controller command, as in `ThreadHandle::Command`. -/
inductive Command
  | Run
  | Cancel
  | Pause
deriving DecidableEq, Repr

/-- From threading.cpp `isFinishStatus`: a status is terminal iff it is
Canceled, Completed or Failed. -/
def isFinishStatus (stat : Status) : Bool :=
  stat == Status.Canceled || stat == Status.Completed || stat == Status.Failed

/-- From threading.cpp `statusToString`. -/
def statusToString (status : Status) : String :=
  match status with
  | Status.Running => "running"
  | Status.Paused => "paused"
  | Status.Canceled => "canceled"
  | Status.Completed => "completed"
  | Status.Failed => "failed"

/-- Modelled from the spec (§4.1; notifier.h is not under src/): a Notifier is
a latched condition signal. `notify` sets the latch, `reset` clears it; a
`waitFor` observes the latch. Cross-thread wakeups are abstracted into the
latch value. -/
structure Notifier where
  latch : Bool
deriving DecidableEq, Repr

def Notifier.notify (_ : Notifier) : Notifier := { latch := true }

def Notifier.reset (_ : Notifier) : Notifier := { latch := false }

/-- The mutable fields of `ThreadHandle` relevant to the status/command state
machine: `status_`, `command_`, the three notifiers, and the registered
interruptable notifier `currNotifier_` (null when no blocking library call is
in progress). The Lua state owned by the handle is irrelevant to these claims
and omitted. All operations below are performed under the handle's single
mutex in the source; the embedding therefore treats each operation as an
atomic state transformation. -/
structure ThreadHandle where
  status_ : Status
  command_ : Command
  statusNotifier_ : Notifier
  commandNotifier_ : Notifier
  completionNotifier_ : Notifier
  currNotifier_ : Option Notifier
deriving DecidableEq, Repr

/-- From threading.cpp `ThreadHandle::ThreadHandle()`: a fresh handle starts
Running with command Run and no registered interruptable notifier. The
notifier latches start cleared. -/
def ThreadHandle.init : ThreadHandle :=
  { status_ := Status.Running
  , command_ := Command.Run
  , statusNotifier_ := { latch := false }
  , commandNotifier_ := { latch := false }
  , completionNotifier_ := { latch := false }
  , currNotifier_ := none }

/-- From threading.cpp `ThreadHandle::putCommand` (lines 151-159): if the
current status is terminal, return without any change; otherwise set
`command_`, reset the STATUS notifier, and notify the COMMAND notifier. -/
def ThreadHandle.putCommand (h : ThreadHandle) (cmd : Command) : ThreadHandle :=
  if isFinishStatus h.status_ then h
  else
    { h with
      command_ := cmd
      statusNotifier_ := h.statusNotifier_.reset
      commandNotifier_ := h.commandNotifier_.notify }

/-- From threading.cpp `ThreadHandle::changeStatus` (lines 161-168): set
`status_`, reset the COMMAND notifier, notify the STATUS notifier, and if the
new status is terminal additionally notify the completion notifier. -/
def ThreadHandle.changeStatus (h : ThreadHandle) (stat : Status) : ThreadHandle :=
  let h1 :=
    { h with
      status_ := stat
      commandNotifier_ := h.commandNotifier_.reset
      statusNotifier_ := h.statusNotifier_.notify }
  if isFinishStatus stat then
    { h1 with completionNotifier_ := h1.completionNotifier_.notify }
  else h1

/-- The claim wording of `putCommand` (spec §4.2): when not terminal, it
"sets `command_`, resets the command-notifier's latch, then notifies it",
with no other effect. Declared only to be compared with
`ThreadHandle.putCommand`, which is translated from the source. -/
def ThreadHandle.putCommandClaimed (h : ThreadHandle) (cmd : Command) : ThreadHandle :=
  if isFinishStatus h.status_ then h
  else
    { h with
      command_ := cmd
      commandNotifier_ := h.commandNotifier_.reset.notify }

/-- The claim wording of `changeStatus` (spec §4.2): it "sets `status_`,
resets the status-notifier, notifies it; if terminal, additionally notifies
the completion-notifier", with no other effect. Declared only to be compared
with `ThreadHandle.changeStatus`, which is translated from the source. -/
def ThreadHandle.changeStatusClaimed (h : ThreadHandle) (stat : Status) : ThreadHandle :=
  let h1 :=
    { h with
      status_ := stat
      statusNotifier_ := h.statusNotifier_.reset.notify }
  if isFinishStatus stat then
    { h1 with completionNotifier_ := h1.completionNotifier_.notify }
  else h1

/-- Modelled from the spec (§4.2; threading.h is not under src/):
`setNotifier` stores the interruptable back-reference `currNotifier_`. -/
def ThreadHandle.setNotifier (h : ThreadHandle) (n : Option Notifier) : ThreadHandle :=
  { h with currNotifier_ := n }

/-- Modelled from the spec (§4.2; threading.h is not under src/):
`interrupt()` wakes the registered interruptable notifier if one is present,
otherwise it is a no-op. -/
def ThreadHandle.interrupt (h : ThreadHandle) : ThreadHandle :=
  match h.currNotifier_ with
  | some n => { h with currNotifier_ := some n.notify }
  | none => h

/-- Modelled from the spec (§4.2; threading.h is not under src/):
`waitForStatusChange` blocks on the status notifier and returns the status
observed afterward. In the sequential model: if the status-notifier latch is
already set the wait returns immediately with the current status; otherwise
the call would block on the worker, modelled as `none`. -/
def ThreadHandle.waitForStatusChange (h : ThreadHandle) : Option Status :=
  if h.statusNotifier_.latch then some h.status_ else none

/-! Worker-side hook protocol. The worker blocks in
`waitForCommandChange` while paused; the successive values that wait returns
are supplied as an explicit list of observed commands (the environment
trace produced by the controller's `putCommand` calls). -/

/-- Outcome of one hook invocation on the worker thread: either control
returns to the interpreter, or a `LuaHookStopException` unwind is thrown. -/
inductive HookOutcome
  | proceed
  | stop
deriving DecidableEq, Repr

/-- From threading.cpp `luaHook` (lines 65-70): the do/while loop that keeps
calling `waitForCommandChange(NO_TIMEOUT)` until the observed command is Run
or Cancel. Returns the first such command, or `none` if the supplied
observations run out (the worker is still blocked: no timeout can end the
wait). -/
def commandWaitLoop : List Command → Option Command
  | [] => none
  | c :: rest =>
    if c ≠ Command.Run ∧ c ≠ Command.Cancel then commandWaitLoop rest
    else some c

/-- From threading.cpp `luaHook` (lines 57-80): on Run, no-op; on Cancel,
`changeStatus(Canceled)` then throw; on Pause, `changeStatus(Paused)`, loop
on `waitForCommandChange` until Run or Cancel, then either resume as Running
or cancel and throw. `obs` is the list of commands the paused worker
observes. `none` means the worker is still blocked in the pause loop. -/
def luaHook (h : ThreadHandle) (obs : List Command) :
    Option (ThreadHandle × HookOutcome) :=
  match h.command_ with
  | Command.Run => some (h, HookOutcome.proceed)
  | Command.Cancel => some (h.changeStatus Status.Canceled, HookOutcome.stop)
  | Command.Pause =>
    let h1 := h.changeStatus Status.Paused
    match commandWaitLoop obs with
    | none => none
    | some cmd =>
      if cmd = Command.Run then
        some (({ h1 with command_ := cmd }).changeStatus Status.Running,
              HookOutcome.proceed)
      else
        some (({ h1 with command_ := cmd }).changeStatus Status.Canceled,
              HookOutcome.stop)

/-- From threading.cpp `this_thread::interruptionPoint` (lines 98-104): if
the thread-local handle is present and its command is Cancel,
`changeStatus(Canceled)` and throw `LuaHookStopException`; otherwise do
nothing. The returned Bool records whether the stop exception was thrown. -/
def interruptionPoint : Option ThreadHandle → Option ThreadHandle × Bool
  | none => (none, false)
  | some h =>
    if h.command_ = Command.Cancel then
      (some (h.changeStatus Status.Canceled), true)
    else (some h, false)

/-- View of `interruptionPoint` in the hook-outcome shape, for comparison
with `luaHook`: the code's interruption point never blocks, so it always
produces a result when a handle is present. -/
def interruptionPointAsHook (h : ThreadHandle) :
    Option (ThreadHandle × HookOutcome) :=
  match interruptionPoint (some h) with
  | (some h2, threw) =>
    some (h2, if threw then HookOutcome.stop else HookOutcome.proceed)
  | (none, _) => none

/-- The claim wording of the interruption point (claim C3): it applies "the
same hook-point protocol as the periodic hook", pause handling included.
Declared only to be compared with `interruptionPoint`, which is translated
from the source. -/
def interruptionPointClaimed (h : ThreadHandle) (obs : List Command) :
    Option (ThreadHandle × HookOutcome) :=
  luaHook h obs

/-- From threading.cpp `ScopedSetInterruptable::ScopedSetInterruptable`
(lines 86-90): register the notifier on the thread-local handle if one is
present; otherwise do nothing. -/
def scopedSetInterruptableCtor (th : Option ThreadHandle) (n : Notifier) :
    Option ThreadHandle :=
  match th with
  | some h => some (h.setNotifier (some n))
  | none => none

/-- From threading.cpp `ScopedSetInterruptable::~ScopedSetInterruptable`
(lines 92-96): clear the registered notifier if a handle is present;
otherwise do nothing. -/
def scopedSetInterruptableDtor (th : Option ThreadHandle) :
    Option ThreadHandle :=
  match th with
  | some h => some (h.setNotifier none)
  | none => none

/-! Worker lifecycle: `Thread::runThread`. -/

/-- A stored result value. Sentinels and error descriptions are strings
(`createStoredObject("failed")`, `createStoredObject(err.what())`); other
values are opaque boxes. -/
inductive StoredObject
  | ofString (s : String)
  | boxed (n : Nat)
deriving DecidableEq, Repr

/-- What exceptions can unwind the worker's call stack in `runThread`.
`LuaHookStopException` deliberately does not inherit `std::exception`
(threading.cpp lines 23-25), recorded by `derivesStdException` below. -/
inductive WorkerUnwind
  | stdException (what : String)
  | hookStop
deriving DecidableEq, Repr

/-- From threading.cpp lines 23-25: "Doesn't inherit std::exception to
prevent from catching this exception third party lua C++ libs". Only
`stdException` is a member of the catchable hierarchy. -/
def derivesStdException : WorkerUnwind → Bool
  | WorkerUnwind.stdException _ => true
  | WorkerUnwind.hookStop => false

/-- Abstract outcome of the protected call `userFuncObj(arguments)` inside
`Thread::runThread`, as seen by the C++ control flow around it:
the call returned valid results; the call returned an invalid result
carrying an error value; a `LuaHookStopException` escaped into C++; or some
other C++ `std::exception` escaped. -/
inductive RawOutcome
  | success (rets : List StoredObject)
  | invalidResult (errValue : String)
  | hookStop
  | cppException (what : String)
deriving DecidableEq, Repr

/-- From threading.cpp `Thread::runThread` (lines 170-226), given the
handle, the current content of `ctx_->result()` (`rs`, filled by the error
handler during the call when it ran), and the outcome of the protected call.
Valid result: capture the returned values, `changeStatus(Completed)`.
Invalid result: if status is already Canceled, return at once (the
cancellation unwind was converted to a Lua error inside the call);
otherwise throw `runtime_error(err.what())`, caught below as
`std::exception`, which inserts the two sentinels
`{createStoredObject("failed"), createStoredObject(err.what())}` at the
front of the result list and does `changeStatus(Failed)`.
`LuaHookStopException` caught: `changeStatus(Canceled)`. -/
def Thread.runThread (h : ThreadHandle) (rs : List StoredObject) :
    RawOutcome → ThreadHandle × List StoredObject
  | RawOutcome.success rets => (h.changeStatus Status.Completed, rs ++ rets)
  | RawOutcome.invalidResult errValue =>
    if h.status_ = Status.Canceled then (h, rs)
    else
      (h.changeStatus Status.Failed,
       StoredObject.ofString "failed" :: StoredObject.ofString errValue :: rs)
  | RawOutcome.hookStop => (h.changeStatus Status.Canceled, rs)
  | RawOutcome.cppException what =>
    (h.changeStatus Status.Failed,
     StoredObject.ofString "failed" :: StoredObject.ofString what :: rs)

/-- The worker's callable raised an interpreter-level error with raw
description `msg`. When `handlerInstalled` (threading.cpp lines 186-192,
LUA_VERSION_NUM > 501), `luaErrorHandler` (lines 48-53) runs first: it
builds a traceback `tb msg` with `luaL_traceback`, pops it off the stack
into `ctx_->result()` (`emplace_back`), and its `return 1` therefore hands
back the original error object, so the protected call's error value
(`err.what()`) is still the raw description. With or without a handler, the
error value is `msg`; the handler's only lasting effect is the traceback
appended to the result list. -/
def runUserError (handlerInstalled : Bool) (tb : String → String)
    (msg : String) (h : ThreadHandle) (rs : List StoredObject) :
    ThreadHandle × List StoredObject :=
  if handlerInstalled then
    Thread.runThread h (rs ++ [StoredObject.ofString (tb msg)])
      (RawOutcome.invalidResult msg)
  else
    Thread.runThread h rs (RawOutcome.invalidResult msg)

/-- From threading.cpp `Thread::status` (lines 282-291): if the status is
Failed, return the captured result list; otherwise a one-element list
holding the lowercase status name. -/
def Thread.status (h : ThreadHandle) (rs : List StoredObject) :
    List StoredObject :=
  if h.status_ = Status.Failed then rs
  else [StoredObject.ofString (statusToString h.status_)]

/-- From threading.cpp `Thread::cancel` (lines 316-323): put the Cancel
command, interrupt any registered blocking wait, wait for a status change,
and return whether the observed status is terminal. `none` in the second
component means the wait would block (no latched status signal). -/
def Thread.cancel (h : ThreadHandle) : ThreadHandle × Option Bool :=
  let h1 := h.putCommand Command.Cancel
  let h2 := h1.interrupt
  match h2.waitForStatusChange with
  | some st => (h2, some (isFinishStatus st))
  | none => (h2, none)

/-! Shutdown coordination (shutdown.h, shutdown.cpp). -/

/-- The process-wide atomics of shutdown.h/shutdown.cpp: `SHUTDOWN` and
`ACTIVE_THREAD_COUNT`. -/
structure ShutdownState where
  SHUTDOWN : Bool
  ACTIVE_THREAD_COUNT : Nat
deriving DecidableEq, Repr

/-- From shutdown.h `Shutdown::threadStart`: atomically increment the
active-thread counter. -/
def Shutdown.threadStart (s : ShutdownState) : ShutdownState :=
  { s with ACTIVE_THREAD_COUNT := s.ACTIVE_THREAD_COUNT + 1 }

/-- From shutdown.h `Shutdown::threadFinish`: atomically decrement the
active-thread counter. -/
def Shutdown.threadFinish (s : ShutdownState) : ShutdownState :=
  { s with ACTIVE_THREAD_COUNT := s.ACTIVE_THREAD_COUNT - 1 }

/-- Modelled from the spec (§3 "Active-thread counter"; the worker-side call
sites are not under src/): a worker's hook loop brackets its body with
`threadStart` at entry and `threadFinish` at exit. -/
def workerHookLoop (s : ShutdownState)
    (body : ShutdownState → ShutdownState) : ShutdownState :=
  Shutdown.threadFinish (body (Shutdown.threadStart s))

/-- One observable action of `effil_shutdown`: the store of the shutdown
flag, or one poll of the active-thread counter observing a value. Sleeping
between polls is not an observable action; the loop never blocks on a
notifier. -/
inductive ShutdownEvent
  | storeFlag
  | poll (observed : Nat)
deriving DecidableEq, Repr

/-- From shutdown.cpp `effil_shutdown` (lines 7-13), the polling loop:
`while (activeThreads() > 0) sleep_for(10ms);`. `obs` is the sequence of
counter values the successive loads observe (the environment trace produced
by workers finishing). Returns the polls made and, when the loop exits, the
final observed value; `none` means the counter never drained and the loop
is still running. -/
def shutdownPollLoop : List Nat → List ShutdownEvent × Option Nat
  | [] => ([], none)
  | n :: rest =>
    if n > 0 then
      let p := shutdownPollLoop rest
      (ShutdownEvent.poll n :: p.1, p.2)
    else ([ShutdownEvent.poll n], some n)

/-- From shutdown.cpp `effil_shutdown` (lines 7-13): store true into
`SHUTDOWN`, then poll `activeThreads()` until it reaches zero. The event
trace records the flag store followed by the polls. -/
def effil_shutdown (obs : List Nat) : List ShutdownEvent × Option Nat :=
  let p := shutdownPollLoop obs
  (ShutdownEvent.storeFlag :: p.1, p.2)

/-! Shutdown cookie registration (shutdown.h). -/

/-- State for `Shutdown::register_cookie`: the function-local static atomic
`registered`, whether the Lua registry currently holds the
`effil_shutdown_cookie` entry, and a counter of operations performed on the
Lua state (to express "returns without touching the Lua state"). -/
structure CookieState where
  registered : Bool
  cookieInRegistry : Bool
  luaOps : Nat
deriving DecidableEq, Repr

/-- From shutdown.h `Shutdown::register_cookie` (lines 26-46):
`registered.exchange(true)` — if the previous value was true, return at
once without touching the Lua state; otherwise perform the Lua operations
that install the GC cookie in the registry. The eight Lua stack operations
are abstracted into one registry installation counted in `luaOps`. -/
def Shutdown.register_cookie (s : CookieState) : CookieState :=
  let old := s.registered
  let s1 := { s with registered := true }
  if old then s1
  else { s1 with cookieInRegistry := true, luaOps := s1.luaOps + 1 }

/-! Concrete states used by counterexamples and witnesses. -/

/-- A running handle whose status-notifier latch is set and command-notifier
latch is clear: distinguishes the source `putCommand` from the claim's
wording. -/
def cxHandleStatusLatched : ThreadHandle :=
  { status_ := Status.Running
  , command_ := Command.Run
  , statusNotifier_ := { latch := true }
  , commandNotifier_ := { latch := false }
  , completionNotifier_ := { latch := false }
  , currNotifier_ := none }

/-- A running handle whose command-notifier latch is set: distinguishes the
source `changeStatus` from the claim's wording. -/
def cxHandleCommandLatched : ThreadHandle :=
  { status_ := Status.Running
  , command_ := Command.Run
  , statusNotifier_ := { latch := false }
  , commandNotifier_ := { latch := true }
  , completionNotifier_ := { latch := false }
  , currNotifier_ := none }

/-- A running handle with a pending Pause command, used at the interruption
point. -/
def cxHandlePausePending : ThreadHandle :=
  { status_ := Status.Running
  , command_ := Command.Pause
  , statusNotifier_ := { latch := false }
  , commandNotifier_ := { latch := true }
  , completionNotifier_ := { latch := false }
  , currNotifier_ := none }

/-- A concrete stand-in for `luaL_traceback`: the counterexample only needs
some concrete traceback text, whose exact content is irrelevant. -/
def cxTraceback (_ : String) : String := "stack traceback:"

/-- A handle in a terminal state, as left by a final `changeStatus`: the
status-notifier latch is set, no interruptable notifier is registered. -/
def cxTerminalHandle : ThreadHandle :=
  { status_ := Status.Completed
  , command_ := Command.Run
  , statusNotifier_ := { latch := true }
  , commandNotifier_ := { latch := false }
  , completionNotifier_ := { latch := true }
  , currNotifier_ := none }

/-- A running handle with a pending Cancel command. -/
def cxHandleCancelPending : ThreadHandle :=
  { status_ := Status.Running
  , command_ := Command.Cancel
  , statusNotifier_ := { latch := false }
  , commandNotifier_ := { latch := true }
  , completionNotifier_ := { latch := false }
  , currNotifier_ := none }

/-- A handle whose status is already Canceled (set by the hook before the
unwind reached `runThread`). -/
def cxCanceledHandle : ThreadHandle :=
  { status_ := Status.Canceled
  , command_ := Command.Cancel
  , statusNotifier_ := { latch := true }
  , commandNotifier_ := { latch := false }
  , completionNotifier_ := { latch := true }
  , currNotifier_ := none }

/-- The handle produced when a paused worker observes a Cancel command:
paused, then command updated, then canceled. -/
def cxCancelResumeHandle : ThreadHandle :=
  ({ cxHandlePausePending.changeStatus Status.Paused with
     command_ := Command.Cancel }).changeStatus Status.Canceled

end Effil

namespace Effil

/-- Claim C1 (amended): `putCommand(cmd)` is a no-op when the current status
is terminal; otherwise it sets `command_`, resets the STATUS-notifier's
latch, notifies the command-notifier, and leaves the status field, the
completion notifier and the interruptable slot unchanged. (The claim said
the command-notifier's latch is the one reset; the source resets the
status-notifier's latch.) -/
theorem putCommand_terminal_noop_else_sets_command :
    ∀ (h : ThreadHandle) (cmd : Command),
      (isFinishStatus h.status_ = true → h.putCommand cmd = h) ∧
      (isFinishStatus h.status_ = false →
        (h.putCommand cmd).command_ = cmd ∧
        (h.putCommand cmd).statusNotifier_.latch = false ∧
        (h.putCommand cmd).commandNotifier_.latch = true ∧
        (h.putCommand cmd).status_ = h.status_ ∧
        (h.putCommand cmd).completionNotifier_ = h.completionNotifier_ ∧
        (h.putCommand cmd).currNotifier_ = h.currNotifier_) := by
  intro h cmd
  constructor
  · intro hfin
    simp [ThreadHandle.putCommand, hfin]
  · intro hfin
    simp [ThreadHandle.putCommand, hfin, Notifier.reset, Notifier.notify]

/-- Witness for C1: a terminal handle is untouched, and on a running handle
the command is set and the status-notifier latch cleared. -/
theorem putCommand_terminal_noop_else_sets_command_witness :
    cxTerminalHandle.putCommand Command.Pause = cxTerminalHandle ∧
    (ThreadHandle.init.putCommand Command.Pause).command_ = Command.Pause ∧
    (ThreadHandle.init.putCommand Command.Pause).statusNotifier_.latch = false := by
  refine ⟨(putCommand_terminal_noop_else_sets_command cxTerminalHandle Command.Pause).1
            (by decide), ?_, ?_⟩
  · exact ((putCommand_terminal_noop_else_sets_command ThreadHandle.init Command.Pause).2
      (by decide)).1
  · exact ((putCommand_terminal_noop_else_sets_command ThreadHandle.init Command.Pause).2
      (by decide)).2.1

/-- Counterexample to C1 as stated: on a non-terminal handle whose
status-notifier latch is set, the source `putCommand` clears that latch,
while the claim's wording (reset and notify the command-notifier, nothing
else) leaves it set; the two disagree at this concrete input. -/
theorem putCommand_resets_status_notifier_cx :
    cxHandleStatusLatched.putCommand Command.Pause ≠
      cxHandleStatusLatched.putCommandClaimed Command.Pause ∧
    (cxHandleStatusLatched.putCommand Command.Pause).statusNotifier_.latch = false ∧
    (cxHandleStatusLatched.putCommandClaimed Command.Pause).statusNotifier_.latch = true := by
  decide

/-- Claim C2 (amended): `changeStatus(stat)` sets `status_`, resets the
COMMAND-notifier's latch, notifies the status-notifier, notifies the
completion-notifier exactly when `stat` is terminal, and leaves the command
field and the interruptable slot unchanged. (The claim said the
status-notifier's latch is the one reset; the source resets the
command-notifier's latch.) -/
theorem changeStatus_sets_status_and_notifies :
    ∀ (h : ThreadHandle) (stat : Status),
      (h.changeStatus stat).status_ = stat ∧
      (h.changeStatus stat).command_ = h.command_ ∧
      (h.changeStatus stat).currNotifier_ = h.currNotifier_ ∧
      (h.changeStatus stat).commandNotifier_.latch = false ∧
      (h.changeStatus stat).statusNotifier_.latch = true ∧
      (h.changeStatus stat).completionNotifier_ =
        (if isFinishStatus stat then h.completionNotifier_.notify
         else h.completionNotifier_) := by
  intro h stat
  by_cases hfin : isFinishStatus stat <;>
    simp [ThreadHandle.changeStatus, hfin, Notifier.reset, Notifier.notify]

/-- Counterexample to C2 as stated: on a handle whose command-notifier latch
is set, the source `changeStatus` clears that latch, while the claim's
wording (reset and notify the status-notifier, completion on terminal,
nothing else) leaves it set; the two disagree at this concrete input. -/
theorem changeStatus_resets_command_notifier_cx :
    cxHandleCommandLatched.changeStatus Status.Paused ≠
      cxHandleCommandLatched.changeStatusClaimed Status.Paused ∧
    (cxHandleCommandLatched.changeStatus Status.Paused).commandNotifier_.latch = false ∧
    (cxHandleCommandLatched.changeStatusClaimed Status.Paused).commandNotifier_.latch = true := by
  decide

/-- Claim C3 (amended): `this_thread::interruptionPoint` checks only for a
pending Cancel command. On Cancel it agrees with the periodic hook —
`changeStatus(Canceled)` and a stop-signal unwind; on Run it agrees with the
hook's no-op; an observed Pause is a no-op at an interruption point (no
`changeStatus(Paused)`, no blocking on `waitForCommandChange`). -/
theorem interruptionPoint_checks_only_cancel :
    ∀ (h : ThreadHandle),
      (h.command_ = Command.Cancel →
        interruptionPoint (some h) = (some (h.changeStatus Status.Canceled), true) ∧
        ∀ obs, luaHook h obs = some (h.changeStatus Status.Canceled, HookOutcome.stop)) ∧
      (h.command_ = Command.Run →
        interruptionPoint (some h) = (some h, false) ∧
        ∀ obs, luaHook h obs = some (h, HookOutcome.proceed)) ∧
      (h.command_ = Command.Pause → interruptionPoint (some h) = (some h, false)) := by
  intro h
  refine ⟨?_, ?_, ?_⟩ <;> intro hc <;> simp [interruptionPoint, luaHook, hc]

/-- Witness for C3: the interruption point cancels on a pending Cancel and
does nothing on a pending Pause at these concrete handles. -/
theorem interruptionPoint_checks_only_cancel_witness :
    interruptionPoint (some cxHandleCancelPending) =
      (some (cxHandleCancelPending.changeStatus Status.Canceled), true) ∧
    interruptionPoint (some cxHandlePausePending) = (some cxHandlePausePending, false) := by
  exact ⟨((interruptionPoint_checks_only_cancel cxHandleCancelPending).1 rfl).1,
         (interruptionPoint_checks_only_cancel cxHandlePausePending).2.2 rfl⟩

/-- Counterexample to C3 as stated: with a pending Pause command, the
claimed behavior (the hook protocol) sets status Paused and blocks on the
command-notifier (no observations ⇒ still blocked), while the source
interruption point returns at once with no status change and no unwind. -/
theorem interruptionPoint_ignores_pause_cx :
    interruptionPointAsHook cxHandlePausePending =
      some (cxHandlePausePending, HookOutcome.proceed) ∧
    interruptionPointClaimed cxHandlePausePending [] = none ∧
    cxHandlePausePending.status_ = Status.Running := by
  decide

/-! Shared helper lemmas about `changeStatus` fields and the two wait
loops. -/

theorem changeStatus_status_eq (h : ThreadHandle) (stat : Status) :
    (h.changeStatus stat).status_ = stat := by
  by_cases hfin : isFinishStatus stat <;> simp [ThreadHandle.changeStatus, hfin]

theorem changeStatus_statusLatch (h : ThreadHandle) (stat : Status) :
    (h.changeStatus stat).statusNotifier_.latch = true := by
  by_cases hfin : isFinishStatus stat <;>
    simp [ThreadHandle.changeStatus, hfin, Notifier.notify]

theorem changeStatus_currNotifier (h : ThreadHandle) (stat : Status) :
    (h.changeStatus stat).currNotifier_ = h.currNotifier_ := by
  by_cases hfin : isFinishStatus stat <;> simp [ThreadHandle.changeStatus, hfin]

theorem interrupt_of_none (h : ThreadHandle) (hn : h.currNotifier_ = none) :
    h.interrupt = h := by
  unfold ThreadHandle.interrupt
  rw [hn]

theorem commandWaitLoop_none_iff (obs : List Command) :
    commandWaitLoop obs = none ↔
      ∀ c ∈ obs, c ≠ Command.Run ∧ c ≠ Command.Cancel := by
  induction obs with
  | nil => simp [commandWaitLoop]
  | cons c rest ih =>
    by_cases hc : c ≠ Command.Run ∧ c ≠ Command.Cancel
    · simp [commandWaitLoop, hc, ih]
    · simp [commandWaitLoop, hc]

theorem commandWaitLoop_mem (obs : List Command) (c : Command)
    (h : commandWaitLoop obs = some c) :
    c = Command.Run ∨ c = Command.Cancel := by
  induction obs with
  | nil => simp [commandWaitLoop] at h
  | cons d rest ih =>
    by_cases hd : d ≠ Command.Run ∧ d ≠ Command.Cancel
    · rw [commandWaitLoop, if_pos hd] at h
      exact ih h
    · rw [commandWaitLoop, if_neg hd] at h
      rcases Decidable.not_and_iff_or_not.mp hd with h1 | h1 <;>
        rcases Option.some_injective _ h with rfl
      · exact Or.inl (Decidable.not_not.mp h1)
      · exact Or.inr (Decidable.not_not.mp h1)

theorem shutdownPollLoop_some_eq_zero (obs : List Nat) (n : Nat)
    (h : (shutdownPollLoop obs).2 = some n) : n = 0 := by
  induction obs with
  | nil => simp [shutdownPollLoop] at h
  | cons m rest ih =>
    by_cases hm : m > 0
    · rw [shutdownPollLoop, if_pos hm] at h
      exact ih h
    · rw [shutdownPollLoop, if_neg hm] at h
      rcases Option.some_injective _ h with rfl
      omega

theorem shutdownPollLoop_none_iff (obs : List Nat) :
    (shutdownPollLoop obs).2 = none ↔ ∀ n ∈ obs, 0 < n := by
  induction obs with
  | nil => simp [shutdownPollLoop]
  | cons m rest ih =>
    by_cases hm : m > 0
    · simp [shutdownPollLoop, hm, ih]
    · simp [shutdownPollLoop, hm]

theorem shutdownPollLoop_events (obs : List Nat) (e : ShutdownEvent)
    (h : e ∈ (shutdownPollLoop obs).1) : ∃ n, e = ShutdownEvent.poll n := by
  induction obs with
  | nil => simp [shutdownPollLoop] at h
  | cons m rest ih =>
    by_cases hm : m > 0
    · rw [shutdownPollLoop, if_pos hm] at h
      rcases List.mem_cons.mp h with rfl | h2
      · exact ⟨m, rfl⟩
      · exact ih h2
    · rw [shutdownPollLoop, if_neg hm] at h
      rcases List.mem_singleton.mp h with rfl
      exact ⟨m, rfl⟩

/-- Claim C4: `threadStart`/`threadFinish` increment/decrement the
process-wide counter (and a balanced hook-loop bracket preserves it), and
`effil_shutdown` first stores the shutdown flag, then only polls (every
subsequent event is a counter load, never a notifier wait), returning only
when a poll observes zero; if every observation is positive the loop is
still running. -/
theorem shutdown_sets_flag_then_drains :
    (∀ s : ShutdownState,
      (Shutdown.threadStart s).ACTIVE_THREAD_COUNT = s.ACTIVE_THREAD_COUNT + 1 ∧
      (Shutdown.threadFinish s).ACTIVE_THREAD_COUNT = s.ACTIVE_THREAD_COUNT - 1) ∧
    (∀ (s : ShutdownState) (body : ShutdownState → ShutdownState),
      (∀ t, (body t).ACTIVE_THREAD_COUNT = t.ACTIVE_THREAD_COUNT) →
      (workerHookLoop s body).ACTIVE_THREAD_COUNT = s.ACTIVE_THREAD_COUNT) ∧
    (∀ obs : List Nat,
      (effil_shutdown obs).1.head? = some ShutdownEvent.storeFlag ∧
      (∀ e ∈ (effil_shutdown obs).1.tail, ∃ n, e = ShutdownEvent.poll n) ∧
      (∀ n, (effil_shutdown obs).2 = some n → n = 0) ∧
      ((effil_shutdown obs).2 = none ↔ ∀ n ∈ obs, 0 < n)) := by
  refine ⟨?_, ?_, ?_⟩
  · intro s
    exact ⟨rfl, rfl⟩
  · intro s body hbody
    show (Shutdown.threadFinish (body (Shutdown.threadStart s))).ACTIVE_THREAD_COUNT = _
    rw [Shutdown.threadFinish, hbody (Shutdown.threadStart s)]
    simp [Shutdown.threadStart]
  · intro obs
    refine ⟨rfl, ?_, ?_, ?_⟩
    · intro e he
      exact shutdownPollLoop_events obs e he
    · intro n hn
      exact shutdownPollLoop_some_eq_zero obs n hn
    · exact shutdownPollLoop_none_iff obs

/-- Witness for C4: at a concrete observation trace the flag store comes
first and the loop exits on the zero observation; a balanced worker bracket
leaves the counter unchanged. -/
theorem shutdown_sets_flag_then_drains_witness :
    (effil_shutdown [2, 1, 0]).1.head? = some ShutdownEvent.storeFlag ∧
    (workerHookLoop ⟨false, 3⟩ id).ACTIVE_THREAD_COUNT = 3 ∧
    (0 : Nat) = 0 := by
  refine ⟨(shutdown_sets_flag_then_drains.2.2 [2, 1, 0]).1,
          shutdown_sets_flag_then_drains.2.1 ⟨false, 3⟩ id (fun t => rfl),
          (shutdown_sets_flag_then_drains.2.2 [2, 1, 0]).2.2.1 0 (by decide)⟩

/-- Claim C5 (amended): on an interpreter-level error the worker prepends
exactly two sentinels — the literal "failed" marker, then the error's
textual description, which is the raw error text whether or not the error
handler ran — to the result list and transitions to Failed. Without a
handler a callable raising "boom" yields status payload exactly
["failed", "boom"]. When the error handler ran, the traceback it popped
into the result list remains appended at the tail, so the payload is
["failed", "boom", traceback], not the two-element list. -/
theorem runThread_user_error_failed :
    ∀ (tb : String → String) (msg : String) (h : ThreadHandle)
      (rs : List StoredObject),
      h.status_ ≠ Status.Canceled →
      (runUserError false tb msg h rs =
        (h.changeStatus Status.Failed,
         StoredObject.ofString "failed" :: StoredObject.ofString msg :: rs)) ∧
      (runUserError true tb msg h rs =
        (h.changeStatus Status.Failed,
         StoredObject.ofString "failed" :: StoredObject.ofString msg ::
           (rs ++ [StoredObject.ofString (tb msg)]))) ∧
      (Thread.status (runUserError false tb msg h []).1
          (runUserError false tb msg h []).2 =
        [StoredObject.ofString "failed", StoredObject.ofString msg]) := by
  intro tb msg h rs hne
  have hfail : (h.changeStatus Status.Failed).status_ = Status.Failed :=
    changeStatus_status_eq h Status.Failed
  refine ⟨?_, ?_, ?_⟩
  · simp [runUserError, Thread.runThread, hne]
  · simp [runUserError, Thread.runThread, hne]
  · simp [runUserError, Thread.runThread, Thread.status, hne, hfail]

/-- Witness for C5: a callable raising "boom" with no handler installed
reports exactly ["failed", "boom"]. -/
theorem runThread_user_error_failed_witness :
    Thread.status (runUserError false cxTraceback "boom" ThreadHandle.init []).1
        (runUserError false cxTraceback "boom" ThreadHandle.init []).2 =
      [StoredObject.ofString "failed", StoredObject.ofString "boom"] :=
  (runThread_user_error_failed cxTraceback "boom" ThreadHandle.init []
    (by decide)).2.2

/-- Counterexample to C5 as stated: when the error handler ran (Lua > 5.1),
the status payload for a callable raising "boom" is not ["failed", "boom"]:
the traceback the handler popped into the result list remains at the tail,
making it a three-element list ["failed", "boom", traceback]. -/
theorem runThread_handler_payload_cx :
    Thread.status (runUserError true cxTraceback "boom" ThreadHandle.init []).1
        (runUserError true cxTraceback "boom" ThreadHandle.init []).2 ≠
      [StoredObject.ofString "failed", StoredObject.ofString "boom"] ∧
    Thread.status (runUserError true cxTraceback "boom" ThreadHandle.init []).1
        (runUserError true cxTraceback "boom" ThreadHandle.init []).2 =
      [StoredObject.ofString "failed",
       StoredObject.ofString "boom",
       StoredObject.ofString "stack traceback:"] := by
  decide

/-- Claim C6: the cancellation unwind (`LuaHookStopException`) is outside
the catchable `std::exception` hierarchy, is recovered at the top of
`runThread`, and always yields the terminal status Canceled — never Failed
— whether it escapes into C++ directly or was converted to an invalid call
result with the status already set to Canceled by the hook. -/
theorem cancel_unwind_maps_to_canceled :
    derivesStdException WorkerUnwind.hookStop = false ∧
    (∀ (h : ThreadHandle) (rs : List StoredObject),
      Thread.runThread h rs RawOutcome.hookStop =
        (h.changeStatus Status.Canceled, rs) ∧
      (Thread.runThread h rs RawOutcome.hookStop).1.status_ = Status.Canceled ∧
      (Thread.runThread h rs RawOutcome.hookStop).1.status_ ≠ Status.Failed) ∧
    (∀ (h : ThreadHandle) (rs : List StoredObject) (e : String),
      h.status_ = Status.Canceled →
      Thread.runThread h rs (RawOutcome.invalidResult e) = (h, rs) ∧
      (Thread.runThread h rs (RawOutcome.invalidResult e)).1.status_ =
        Status.Canceled) := by
  refine ⟨rfl, ?_, ?_⟩
  · intro h rs
    have hs : (h.changeStatus Status.Canceled).status_ = Status.Canceled :=
      changeStatus_status_eq h Status.Canceled
    refine ⟨rfl, ?_, ?_⟩
    · simpa [Thread.runThread] using hs
    · simp [Thread.runThread, hs]
  · intro h rs e hc
    refine ⟨?_, ?_⟩ <;> simp [Thread.runThread, hc]

/-- Witness for C6: at a handle already Canceled by the hook, the
invalid-result path returns unchanged, still Canceled. -/
theorem cancel_unwind_maps_to_canceled_witness :
    Thread.runThread cxCanceledHandle [] (RawOutcome.invalidResult "x") =
      (cxCanceledHandle, []) ∧
    (Thread.runThread cxCanceledHandle [] RawOutcome.hookStop).1.status_ =
      Status.Canceled := by
  exact ⟨(cancel_unwind_maps_to_canceled.2.2 cxCanceledHandle [] "x" (by decide)).1,
         (cancel_unwind_maps_to_canceled.2.1 cxCanceledHandle []).2.1⟩

/-- Claim C7: a paused worker leaves the pause loop only upon observing Run
(resuming as Running) or Cancel (ending as Canceled with a stop unwind); if
no observed command is Run or Cancel it stays blocked (no timeout is
passed, so nothing else ends the wait). -/
theorem paused_leaves_only_on_run_or_cancel :
    ∀ (h : ThreadHandle) (obs : List Command),
      h.command_ = Command.Pause →
      (luaHook h obs = none ↔
        ∀ c ∈ obs, c ≠ Command.Run ∧ c ≠ Command.Cancel) ∧
      (∀ h2 o, luaHook h obs = some (h2, o) →
        (o = HookOutcome.proceed ∧ h2.status_ = Status.Running) ∨
        (o = HookOutcome.stop ∧ h2.status_ = Status.Canceled)) := by
  intro h obs hc
  cases hcw : commandWaitLoop obs with
  | none =>
    have hl : luaHook h obs = none := by simp [luaHook, hc, hcw]
    constructor
    · exact iff_of_true hl ((commandWaitLoop_none_iff obs).mp hcw)
    · intro h2 o hsome
      rw [hl] at hsome
      exact Option.noConfusion hsome
  | some c =>
    have hne : ¬ ∀ c2 ∈ obs, c2 ≠ Command.Run ∧ c2 ≠ Command.Cancel := by
      intro hall
      rw [(commandWaitLoop_none_iff obs).mpr hall] at hcw
      exact Option.noConfusion hcw
    rcases commandWaitLoop_mem obs c hcw with rfl | rfl
    · have hl : luaHook h obs =
          some (({ h.changeStatus Status.Paused with
                   command_ := Command.Run }).changeStatus Status.Running,
                HookOutcome.proceed) := by
        simp [luaHook, hc, hcw]
      constructor
      · refine iff_of_false ?_ hne
        rw [hl]
        exact fun hx => Option.noConfusion hx
      · intro h2 o hsome
        rw [hl] at hsome
        injection hsome with h3
        injection h3 with h4 h5
        subst h4
        subst h5
        exact Or.inl ⟨rfl, changeStatus_status_eq _ Status.Running⟩
    · have hl : luaHook h obs =
          some (({ h.changeStatus Status.Paused with
                   command_ := Command.Cancel }).changeStatus Status.Canceled,
                HookOutcome.stop) := by
        simp [luaHook, hc, hcw]
      constructor
      · refine iff_of_false ?_ hne
        rw [hl]
        exact fun hx => Option.noConfusion hx
      · intro h2 o hsome
        rw [hl] at hsome
        injection hsome with h3
        injection h3 with h4 h5
        subst h4
        subst h5
        exact Or.inr ⟨rfl, changeStatus_status_eq _ Status.Canceled⟩

/-- Witness for C7: with no observations the paused worker stays blocked;
observing Cancel ends the pause loop as Canceled with a stop unwind. -/
theorem paused_leaves_only_on_run_or_cancel_witness :
    luaHook cxHandlePausePending [] = none ∧
    ((HookOutcome.stop = HookOutcome.proceed ∧
        cxCancelResumeHandle.status_ = Status.Running) ∨
     (HookOutcome.stop = HookOutcome.stop ∧
        cxCancelResumeHandle.status_ = Status.Canceled)) := by
  constructor
  · exact (paused_leaves_only_on_run_or_cancel cxHandlePausePending [] rfl).1.mpr
      (by decide)
  · exact (paused_leaves_only_on_run_or_cancel cxHandlePausePending
      [Command.Cancel] rfl).2 cxCancelResumeHandle HookOutcome.stop (by decide)

/-- Claim C8: a second `Thread::cancel` on a worker whose status became
terminal via its final `changeStatus` is a no-op returning true: putCommand
drops the command, interrupt has no target (the worker exited its scoped
interruptable regions), and waitForStatusChange observes the latched
terminal status immediately. -/
theorem cancel_noop_on_terminal :
    ∀ (h : ThreadHandle) (stat : Status) (cmd : Command),
      isFinishStatus stat = true → h.currNotifier_ = none →
      ((h.changeStatus stat).putCommand cmd = h.changeStatus stat ∧
       (h.changeStatus stat).interrupt = h.changeStatus stat ∧
       (h.changeStatus stat).waitForStatusChange = some stat ∧
       Thread.cancel (h.changeStatus stat) = (h.changeStatus stat, some true)) := by
  intro h stat cmd hfin hnone
  have hs := changeStatus_status_eq h stat
  have hl := changeStatus_statusLatch h stat
  have hcn : (h.changeStatus stat).currNotifier_ = none :=
    (changeStatus_currNotifier h stat).trans hnone
  have hput : ∀ c, (h.changeStatus stat).putCommand c = h.changeStatus stat := by
    intro c
    simp [ThreadHandle.putCommand, hs, hfin]
  have hint : (h.changeStatus stat).interrupt = h.changeStatus stat :=
    interrupt_of_none _ hcn
  have hwait : (h.changeStatus stat).waitForStatusChange = some stat := by
    simp [ThreadHandle.waitForStatusChange, hl, hs]
  refine ⟨hput cmd, hint, hwait, ?_⟩
  simp [Thread.cancel, hput, hint, hwait, hfin]

/-- Witness for C8: cancelling an already-canceled worker at a concrete
handle leaves it unchanged and returns true. -/
theorem cancel_noop_on_terminal_witness :
    Thread.cancel (cxHandleCancelPending.changeStatus Status.Canceled) =
      (cxHandleCancelPending.changeStatus Status.Canceled, some true) :=
  (cancel_noop_on_terminal cxHandleCancelPending Status.Canceled Command.Run
    (by decide) (by decide)).2.2.2

/-- Claim C9: `Shutdown::register_cookie` is effectively idempotent — only
the first call (static flag still false) installs the GC cookie in the Lua
registry; any call with the flag already set returns without performing any
Lua operation, and a repeated call is absorbed. -/
theorem register_cookie_idempotent :
    ∀ s : CookieState,
      (s.registered = false →
        (Shutdown.register_cookie s).registered = true ∧
        (Shutdown.register_cookie s).cookieInRegistry = true ∧
        (Shutdown.register_cookie s).luaOps = s.luaOps + 1) ∧
      (s.registered = true → Shutdown.register_cookie s = s) ∧
      Shutdown.register_cookie (Shutdown.register_cookie s) =
        Shutdown.register_cookie s := by
  intro s
  rcases s with ⟨r, c, l⟩
  cases r <;> simp [Shutdown.register_cookie]

/-- Witness for C9: the first call installs the cookie; a call with the
flag set returns the state untouched. -/
theorem register_cookie_idempotent_witness :
    (Shutdown.register_cookie ⟨false, false, 0⟩).cookieInRegistry = true ∧
    Shutdown.register_cookie ⟨true, false, 5⟩ = ⟨true, false, 5⟩ := by
  exact ⟨((register_cookie_idempotent ⟨false, false, 0⟩).1 rfl).2.1,
         (register_cookie_idempotent ⟨true, false, 5⟩).2.1 rfl⟩

/-- Claim C10: with no associated handle (`thisThreadHandle` null, e.g. on
the controlling thread), `interruptionPoint` and the
`ScopedSetInterruptable` constructor and destructor are no-ops: no status
change, no notifier registration, and no exception thrown (the Bool
component of `interruptionPoint` is false). -/
theorem no_handle_operations_are_noops :
    ∀ n : Notifier,
      interruptionPoint none = (none, false) ∧
      scopedSetInterruptableCtor none n = none ∧
      scopedSetInterruptableDtor none = none := by
  intro n
  exact ⟨rfl, rfl, rfl⟩

end Effil
